import Mathlib

/-!
Verification of the LLM Ensemble routing/orchestration engine.

This file gives a shallow embedding, in Lean 4, of the pure decision logic
and the state-transition logic of the backend under `backend/app/`:

* `backend/app/utils/cache.py` — `CacheEntry`, `CacheManager`, `RateLimiter`;
* `backend/app/services/llm_service.py` — `call_model` / `call_models_parallel`;
* `backend/app/services/router_service.py` — `detect_temporal_query`,
  `determine_execution_path`;
* `backend/app/services/synthesis_service.py` — `synthesize`;
* `backend/app/services/time_travel_service_optimized.py` — `CircuitBreaker`,
  `classify_question_complexity`, `generate_snapshot_parallel`,
  `generate_all_snapshots_parallel`.

Modelling conventions:
* wall-clock instants (`time.time()` values) are rational numbers passed
  explicitly to each operation that reads the clock;
* network I/O is replaced by explicit per-call outcome values (success with
  payload, timeout, API error, raised exception) supplied as arguments, so a
  function that performs a call becomes a pure function of its outcome;
* Python dictionaries become functions into `Option`;
* Python truthiness tests are translated faithfully (`0`, `""`, `[]`, `None`
  are falsy), which matters for `ttl or self.default_ttl` and for
  `if self._last_failure_time and ...`;
* floating-point numbers become `ℚ`; the cosmetic `round(x, 6)` calls on
  reported costs and latencies are not modelled, and neither are log lines,
  hit/miss statistics counters, human-readable `reasoning`/rationale strings,
  nor the `datetime` timestamps that merely stamp a response.
-/

namespace LLMEnsemble

/-! ### Cache (`backend/app/utils/cache.py`) -/

/-- `CacheEntry` from `cache.py`: a value with its creation instant and TTL. -/
structure CacheEntry (α : Type) where
  value : α
  created_at : ℚ
  ttl : ℤ
deriving DecidableEq

/-- `CacheEntry.is_expired`: `time.time() - self.created_at > self.ttl`,
with the clock reading passed explicitly. -/
def CacheEntry.is_expired {α : Type} (e : CacheEntry α) (now : ℚ) : Bool :=
  decide (now - e.created_at > (e.ttl : ℚ))

/-- `CacheManager` from `cache.py`: the `_cache` dictionary (modelled as a
function into `Option`) plus the `default_ttl` constructor argument.  The
`_stats` counters and the lock are not modelled. -/
structure CacheManager (α : Type) where
  default_ttl : ℤ
  store : String → Option (CacheEntry α)

/-- `CacheManager.get`: returns the cached value, or `None` when the key is
absent or the entry has expired; an expired entry is deleted on access.
The returned pair is (result, cache state after the access). -/
def CacheManager.get {α : Type} (m : CacheManager α) (key : String) (now : ℚ) :
    Option α × CacheManager α :=
  match m.store key with
  | none => (none, m)
  | some entry =>
      if entry.is_expired now then
        (none, { m with store := fun k => if k = key then none else m.store k })
      else
        (some entry.value, m)

/-- The effective TTL of `CacheManager.set`: Python's `ttl or self.default_ttl`,
where both `None` and `0` are falsy and fall back to the default. -/
def CacheManager.effectiveTTL {α : Type} (m : CacheManager α) (ttl : Option ℤ) : ℤ :=
  match ttl with
  | none => m.default_ttl
  | some t => if t = 0 then m.default_ttl else t

/-- `CacheManager.set`: stores `CacheEntry(value, created_at=time.time(),
ttl=ttl or self.default_ttl)` under `key`. -/
def CacheManager.set {α : Type} (m : CacheManager α) (key : String) (value : α)
    (ttl : Option ℤ) (now : ℚ) : CacheManager α :=
  { m with
    store := fun k =>
      if k = key then some ⟨value, now, m.effectiveTTL ttl⟩ else m.store k }

/-! ### Rate limiter (`backend/app/utils/cache.py`) -/

/-- `RateLimiter` from `cache.py`: the `_clients` dictionary mapping a client
id to its `RateLimitEntry.requests` timestamp list, plus the constructor
arguments.  The lock is not modelled. -/
structure RateLimiter where
  max_requests : ℕ
  window_seconds : ℤ
  clients : String → Option (List ℚ)

/-- `RateLimitEntry.cleanup`: drop timestamps at or before `now - window`
(the code keeps `ts > cutoff`). -/
def RateLimitEntry.cleanup (requests : List ℚ) (window : ℤ) (now : ℚ) : List ℚ :=
  requests.filter fun ts => decide (ts > now - (window : ℚ))

/-- `RateLimiter.is_allowed`: prune the client's window, refuse when the
pruned count has reached `max_requests`, otherwise record the request and
allow it.  Returns (decision, limiter state after the call). -/
def RateLimiter.is_allowed (rl : RateLimiter) (client : String) (now : ℚ) :
    Bool × RateLimiter :=
  let entry := (rl.clients client).getD []
  let pruned := RateLimitEntry.cleanup entry rl.window_seconds now
  if rl.max_requests ≤ pruned.length then
    (false, { rl with clients := fun c => if c = client then some pruned else rl.clients c })
  else
    (true,
     { rl with
       clients := fun c => if c = client then some (pruned ++ [now]) else rl.clients c })

/-- Run a sequence of `is_allowed` calls for one client at the given instants,
collecting the decisions in order. -/
def RateLimiter.runAllowed (rl : RateLimiter) (client : String) :
    List ℚ → RateLimiter × List Bool
  | [] => (rl, [])
  | t :: ts =>
      let step := rl.is_allowed client t
      let rest := step.2.runAllowed client ts
      (rest.1, step.1 :: rest.2)

/-! ### Circuit breaker (`backend/app/services/time_travel_service_optimized.py`) -/

/-- `CircuitState` from the optimized time-travel service.  `OPEN` is rendered
as `opened` because `open` is reserved in Lean. -/
inductive CircuitState where
  | closed
  | opened
  | half_open
deriving DecidableEq

/-- `CircuitBreaker` dataclass: configuration fields plus the private mutable
fields (`_failure_count`, `_last_failure_time`, `_state`, `_half_open_calls`). -/
structure CircuitBreaker where
  name : String
  failure_threshold : ℕ
  recovery_timeout : ℚ
  half_open_max_calls : ℕ
  failureCount : ℕ
  lastFailureTime : Option ℚ
  state : CircuitState
  halfOpenCalls : ℕ
deriving DecidableEq

/-- A freshly constructed `CircuitBreaker(name, threshold, timeout, max_calls)`:
zero failures, no failure time, `CLOSED`, zero half-open calls. -/
def CircuitBreaker.fresh (name : String) (threshold : ℕ) (timeout : ℚ)
    (maxCalls : ℕ) : CircuitBreaker :=
  ⟨name, threshold, timeout, maxCalls, 0, none, CircuitState.closed, 0⟩

/-- The `state` property's side effect: an `OPEN` breaker whose last failure
is truthy (non-zero) and older than `recovery_timeout` becomes `HALF_OPEN`
with the probe counter reset. -/
def CircuitBreaker.stateAt (cb : CircuitBreaker) (now : ℚ) : CircuitBreaker :=
  let lastFailureElapsed : Bool :=
    match cb.lastFailureTime with
    | some t => decide (t ≠ 0) && decide (now - t > cb.recovery_timeout)
    | none => false
  if cb.state = CircuitState.opened ∧ lastFailureElapsed = true then
    { cb with state := CircuitState.half_open, halfOpenCalls := 0 }
  else cb

/-- `CircuitBreaker.record_success`: in `HALF_OPEN`, count the probe and close
the circuit (resetting the failure count) once `half_open_max_calls` probes
have succeeded; in any other state, reset the failure count. -/
def CircuitBreaker.record_success (cb : CircuitBreaker) : CircuitBreaker :=
  if cb.state = CircuitState.half_open then
    let calls := cb.halfOpenCalls + 1
    if cb.half_open_max_calls ≤ calls then
      { cb with halfOpenCalls := calls, state := CircuitState.closed, failureCount := 0 }
    else
      { cb with halfOpenCalls := calls }
  else
    { cb with failureCount := 0 }

/-- `CircuitBreaker.record_failure`: count the failure, stamp the failure
time, and open the circuit once `failure_threshold` is reached. -/
def CircuitBreaker.record_failure (cb : CircuitBreaker) (now : ℚ) : CircuitBreaker :=
  let count := cb.failureCount + 1
  { cb with
    failureCount := count
    lastFailureTime := some now
    state := if cb.failure_threshold ≤ count then CircuitState.opened else cb.state }

/-- `CircuitBreaker.can_execute`: evaluate the `state` property (which may
transition `OPEN → HALF_OPEN`), then allow in `CLOSED`, allow at most
`half_open_max_calls` probes in `HALF_OPEN`, and refuse in `OPEN`.
Returns (decision, breaker state after the check). -/
def CircuitBreaker.can_execute (cb : CircuitBreaker) (now : ℚ) :
    Bool × CircuitBreaker :=
  let cb' := cb.stateAt now
  match cb'.state with
  | CircuitState.closed => (true, cb')
  | CircuitState.half_open => (decide (cb'.halfOpenCalls < cb'.half_open_max_calls), cb')
  | CircuitState.opened => (false, cb')

/-- Run a sequence of `record_failure` calls at the given instants. -/
def CircuitBreaker.recordFailures (cb : CircuitBreaker) : List ℚ → CircuitBreaker
  | [] => cb
  | t :: ts => (cb.record_failure t).recordFailures ts

/-- The breaker obtained from a fresh `CircuitBreaker(nm, thr, rt, maxc)` after
a sequence of `record_failure` calls at the given instants. -/
def CircuitBreaker.afterFailures (nm : String) (thr : ℕ) (rt : ℚ) (maxc : ℕ)
    (ts : List ℚ) : CircuitBreaker :=
  (CircuitBreaker.fresh nm thr rt maxc).recordFailures ts

/-! ### Schemas (`backend/app/schemas.py`) -/

/-- `TokenUsage` schema. -/
structure TokenUsage where
  prompt_tokens : ℕ
  completion_tokens : ℕ
  total_tokens : ℕ
deriving DecidableEq

/-- The all-zero `TokenUsage()` default. -/
def TokenUsage.zero : TokenUsage := ⟨0, 0, 0⟩

/-- `CacheStatus` enum. -/
inductive CacheStatus where
  | hit
  | miss
deriving DecidableEq

/-- `ModelResponse` schema.  The `timestamp` field (a `datetime` merely
stamping the response) is not modelled. -/
structure ModelResponse where
  model_name : String
  response_text : String
  tokens_used : TokenUsage
  cost_estimate : ℚ
  response_time_seconds : ℚ
  cache_status : CacheStatus
  error : Option String
  success : Bool
deriving DecidableEq

/-- `ComplexityLevel` enum. -/
inductive ComplexityLevel where
  | simple
  | moderate
  | complex
deriving DecidableEq

/-- `QueryIntent` enum. -/
inductive QueryIntent where
  | factual
  | creative
  | analytical
  | procedural
  | comparative
deriving DecidableEq

/-- `QueryDomain` enum. -/
inductive QueryDomain where
  | coding
  | technical
  | general
  | creative
  | research
deriving DecidableEq

/-- `TemporalScope` enum. -/
inductive TemporalScope where
  | evergreen
  | historical
  | current
  | future
deriving DecidableEq

/-- `TemporalDetectionResult` schema.  The human-readable `reasoning` string
is not modelled. -/
structure TemporalDetectionResult where
  is_temporal : Bool
  temporal_scope : TemporalScope
  requires_current_data : Bool
  detected_keywords : List String
  detected_years : List ℤ
  confidence : ℚ
deriving DecidableEq

/-- `QueryClassification` schema (`reasoning` not modelled). -/
structure QueryClassification where
  complexity : ComplexityLevel
  intent : QueryIntent
  domain : QueryDomain
  requires_search : Bool
  temporal_scope : TemporalScope
  recommended_models : List String
  confidence : ℚ
deriving DecidableEq

/-- `RoutingDecision` schema.  The advisory `estimated_cost` /
`estimated_time_seconds` numbers and the `routing_rationale` string are not
modelled (no claim concerns them). -/
structure RoutingDecision where
  models_to_use : List String
  use_synthesis : Bool
  synthesis_model : Option String
  minimum_models_for_temporal : Option ℕ
  add_web_search_recommendation : Bool
deriving DecidableEq

/-- `SynthesisResult` schema (`timestamp` not modelled; the
`model_contributions` dict is modelled as an association list). -/
structure SynthesisResult where
  synthesized_answer : String
  synthesis_model : String
  tokens_used : TokenUsage
  cost_estimate : ℚ
  response_time_seconds : ℚ
  model_contributions : Option (List (String × String))
deriving DecidableEq

/-! ### Model cost table (`backend/app/config.py`, `ModelConfig`) -/

/-- `ModelConfig.COSTS`: cost per 1K tokens (input, output). -/
def ModelConfig.COSTS : String → Option (ℚ × ℚ)
  | "gpt-4-turbo" => some (1/100, 3/100)
  | "gpt-4o" => some (5/1000, 15/1000)
  | "gpt-4o-mini" => some (15/100000, 6/10000)
  | "gpt-5.2" => some (2/100, 6/100)
  | _ => none

/-- `ModelConfig.get_cost`: unknown model costs `0`. -/
def ModelConfig.get_cost (model : String) (input_tokens output_tokens : ℕ) : ℚ :=
  match ModelConfig.COSTS model with
  | none => 0
  | some costs =>
      (input_tokens : ℚ) * costs.1 / 1000 + (output_tokens : ℚ) * costs.2 / 1000

/-! ### LLM service (`backend/app/services/llm_service.py`) -/

/-- The outcome of one `call_model` task, abstracting the cache lookup and the
network I/O inside it: a cache hit returning the stored response, a completed
API call, exhaustion of the retry budget with a last error, or an exception
escaping the task (to be captured by `asyncio.gather`). -/
inductive CallOutcome where
  | cached (r : ModelResponse) (elapsed : ℚ)
  | completed (text : String) (usage : TokenUsage) (elapsed : ℚ)
  | exhausted (lastError : String) (elapsed : ℚ)
  | raised (msg : String)

/-- `call_model`, as a function of its outcome: a cache hit returns the cached
response with `cache_status` refreshed to `HIT` and the measured elapsed time;
a completed call builds a successful `ModelResponse` for `model`; an exhausted
retry budget yields the empty failed response carrying the last error; a
raised exception propagates as `Except.error`. -/
def call_model (model : String) (outcome : CallOutcome) : Except String ModelResponse :=
  match outcome with
  | CallOutcome.cached r elapsed =>
      Except.ok { r with cache_status := CacheStatus.hit, response_time_seconds := elapsed }
  | CallOutcome.completed text usage elapsed =>
      Except.ok
        { model_name := model
          response_text := text
          tokens_used := usage
          cost_estimate := ModelConfig.get_cost model usage.prompt_tokens usage.completion_tokens
          response_time_seconds := elapsed
          cache_status := CacheStatus.miss
          error := none
          success := true }
  | CallOutcome.exhausted lastError elapsed =>
      Except.ok
        { model_name := model
          response_text := ""
          tokens_used := TokenUsage.zero
          cost_estimate := 0
          response_time_seconds := elapsed
          cache_status := CacheStatus.miss
          error := some lastError
          success := false }
  | CallOutcome.raised msg => Except.error msg

/-- The per-slot post-processing of `call_models_parallel`: an exception
gathered from slot `i` is converted into a failed `ModelResponse` for
`models[i]`; a returned response is kept as is. -/
def gatherSlot (model : String) (outcome : CallOutcome) : ModelResponse :=
  match call_model model outcome with
  | Except.ok r => r
  | Except.error msg =>
      { model_name := model
        response_text := ""
        tokens_used := TokenUsage.zero
        cost_estimate := 0
        response_time_seconds := 0
        cache_status := CacheStatus.miss
        error := some msg
        success := false }

/-- `call_models_parallel`: one task per model (in input order), gathered with
`return_exceptions=True` and post-processed slot by slot. -/
def call_models_parallel (models : List String) (outcomes : ℕ → CallOutcome) :
    List ModelResponse :=
  (List.range models.length).map fun i => gatherSlot (models.getD i "") (outcomes i)

/-- Whether a `CallOutcome` is a failed call: retry-budget exhaustion or an
exception escaping the task. -/
def CallOutcome.isFailure : CallOutcome → Bool
  | CallOutcome.exhausted _ _ => true
  | CallOutcome.raised _ => true
  | _ => false

/-! ### Router service (`backend/app/services/router_service.py`)

`detect_temporal_query` is embedded as a function of the observable lexical
features of the question: the deduplicated keyword matches produced by the
Layer-1 regex scan (`matchedKeywords`), the 4-digit years produced by the
Layer-2 scan for `20[2-3]\d` (`detectedYears`), and the result of the
explicit-currency substring scan (`requiresCurrentSignal`).  The regex engine
itself is not re-implemented; the scope/confidence decision logic operating on
those features is embedded verbatim.  `datetime.now().year` and the knowledge
cutoff year parsed from `TemporalConfig.MODEL_KNOWLEDGE_CUTOFF` ("2023-10")
are explicit parameters. -/

/-- `detect_temporal_query` (Layers below the regex scans): temporality test,
scope decision, and the confidence lookup table. -/
def detect_temporal_query (matchedKeywords : List String) (detectedYears : List ℤ)
    (requiresCurrentSignal : Bool) (currentYear cutoffYear : ℤ) :
    TemporalDetectionResult :=
  let is_temporal : Bool :=
    !matchedKeywords.isEmpty || detectedYears.any fun y => decide (y > cutoffYear)
  let scope : TemporalScope :=
    if is_temporal = false then TemporalScope.evergreen
    else if detectedYears.any fun y => decide (y > currentYear) then TemporalScope.future
    else if (!detectedYears.isEmpty) && detectedYears.all fun y => decide (y ≤ cutoffYear) then
      TemporalScope.historical
    else TemporalScope.current
  let confidence : ℚ :=
    if !matchedKeywords.isEmpty && !detectedYears.isEmpty then 95/100
    else if !matchedKeywords.isEmpty then 85/100
    else if !detectedYears.isEmpty then
      (if detectedYears.any fun y => decide (y > cutoffYear) then 80/100 else 60/100)
    else 50/100
  { is_temporal := is_temporal
    temporal_scope := scope
    requires_current_data := requiresCurrentSignal
    detected_keywords := matchedKeywords
    detected_years := detectedYears
    confidence := confidence }

/-- The scope decision rule as the specification words it (used to compare
against the code's `detect_temporal_query`): no temporal match at all implies
evergreen; some extracted year greater than the current year implies future; a
non-empty set of extracted years all at or below the cutoff year implies
historical; otherwise current. -/
def specTemporalScope (matchedKeywords : List String) (detectedYears : List ℤ)
    (currentYear cutoffYear : ℤ) : TemporalScope :=
  if matchedKeywords.isEmpty && detectedYears.isEmpty then TemporalScope.evergreen
  else if detectedYears.any fun y => decide (y > currentYear) then TemporalScope.future
  else if (!detectedYears.isEmpty) && detectedYears.all fun y => decide (y ≤ cutoffYear) then
    TemporalScope.historical
  else TemporalScope.current

/-- The automatic (non-override) model selection of `determine_execution_path`:
per complexity tier, (models, use_synthesis, synthesis_model). -/
def autoRoute (classification : QueryClassification) (synthesisModelSetting : String) :
    List String × Bool × Option String :=
  match classification.complexity with
  | ComplexityLevel.simple => (["gpt-4o-mini"], false, none)
  | ComplexityLevel.moderate => (["gpt-4o-mini", "gpt-4o"], false, none)
  | ComplexityLevel.complex =>
      (["gpt-4-turbo", "gpt-4o", "gpt-4o-mini"], true, some synthesisModelSetting)

/-- `determine_execution_path`: manual override (a non-empty `override_models`
list) short-circuits the tier selection; a temporal query below the
two-model minimum is padded with `"gpt-4o"` when that model is absent; an
explicit `force_synthesis` overrides the synthesis flag and backfills the
synthesis model when it is falsy (`None` or `""`).  `settings.synthesis_model`
is the `synthesisModelSetting` parameter (its configured default is
`"gpt-5.2"`). -/
def determine_execution_path (synthesisModelSetting : String)
    (classification : QueryClassification) (override_models : Option (List String))
    (force_synthesis : Option Bool)
    (temporal_detection : Option TemporalDetectionResult) : RoutingDecision :=
  let min_models_for_temporal : ℕ := 2
  let base :=
    match override_models with
    | some ms =>
        if ms ≠ [] then
          let u : Bool :=
            match force_synthesis with
            | some f => f
            | none => decide (1 < ms.length)
          (ms, u, if u = true then some synthesisModelSetting else none)
        else autoRoute classification synthesisModelSetting
    | none => autoRoute classification synthesisModelSetting
  let isTemp : Bool :=
    match temporal_detection with
    | some td => td.is_temporal
    | none => false
  let models :=
    if isTemp = true ∧ base.1.length < min_models_for_temporal then
      if "gpt-4o" ∈ base.1 then base.1 else base.1 ++ ["gpt-4o"]
    else base.1
  let addSearch : Bool :=
    isTemp &&
      match temporal_detection with
      | some td => td.requires_current_data
      | none => false
  let useSyn : Bool :=
    match force_synthesis with
    | some f => f
    | none => base.2.1
  let synModel : Option String :=
    match force_synthesis with
    | some f =>
        if f = true ∧ base.2.2.getD "" = "" then some synthesisModelSetting
        else base.2.2
    | none => base.2.2
  { models_to_use := models
    use_synthesis := useSyn
    synthesis_model := synModel
    minimum_models_for_temporal :=
      if isTemp = true then some min_models_for_temporal else none
    add_web_search_recommendation := addSearch }

/-! ### Synthesis service (`backend/app/services/synthesis_service.py`) -/

/-- The outcome of the one backing-model synthesis call: completion, timeout,
API error, or any other exception (all three failure kinds are caught and
turned into a non-exceptional `SynthesisResult`). -/
inductive SynthesisOutcome where
  | completed (text : String) (usage : TokenUsage) (elapsed : ℚ)
  | timedOut (elapsed : ℚ)
  | apiError (msg : String) (elapsed : ℚ)
  | unexpectedError (msg : String) (elapsed : ℚ)

/-- The filter at the top of `synthesize`: keep responses with
`r.success and r.response_text` (Python truthiness: non-empty text). -/
def successfulResponses (rs : List ModelResponse) : List ModelResponse :=
  rs.filter fun r => r.success && !(r.response_text = "")

/-- `_extract_model_contributions`: one entry per successful response.  The
human-readable note (`"Provided {n} words in {t:.2f}s"`) involves float
formatting and is abstracted as the `contributionNote` parameter. -/
def extract_model_contributions (contributionNote : ModelResponse → String)
    (responses : List ModelResponse) : List (String × String) :=
  (responses.filter fun r => r.success).map fun r => (r.model_name, contributionNote r)

/-- `synthesize`: zero successful responses yield the explicit
no-successful-responses marker at zero cost; exactly one yields that
response's text prefixed with a single-source note, at that response's own
cost, without consulting the synthesis call's outcome; two or more consult
the backing call, degrading every failure into an explicit failure message.
Locally measured wall-clock durations that the claims do not concern are
taken from the outcome (or `0` where no call is made). -/
def synthesize (model_responses : List ModelResponse)
    (synthesis_model : Option String) (settingSynthesisModel : String)
    (contributionNote : ModelResponse → String) (outcome : SynthesisOutcome) :
    SynthesisResult :=
  let synModel : String :=
    match synthesis_model with
    | some s => if s = "" then settingSynthesisModel else s
    | none => settingSynthesisModel
  match successfulResponses model_responses with
  | [] =>
      { synthesized_answer := "Unable to synthesize: No successful model responses available."
        synthesis_model := synModel
        tokens_used := TokenUsage.zero
        cost_estimate := 0
        response_time_seconds := 0
        model_contributions := none }
  | [r] =>
      { synthesized_answer :=
          "*Note: Only one model (" ++ r.model_name ++
            ") provided a successful response.*\n\n" ++ r.response_text
        synthesis_model := r.model_name
        tokens_used := r.tokens_used
        cost_estimate := r.cost_estimate
        response_time_seconds := 0
        model_contributions := some [(r.model_name, "Sole contributor")] }
  | r₁ :: r₂ :: rest =>
      let successful := r₁ :: r₂ :: rest
      match outcome with
      | SynthesisOutcome.completed text usage elapsed =>
          { synthesized_answer := text
            synthesis_model := synModel
            tokens_used := usage
            cost_estimate :=
              ModelConfig.get_cost synModel usage.prompt_tokens usage.completion_tokens
            response_time_seconds := elapsed
            model_contributions :=
              some (extract_model_contributions contributionNote successful) }
      | SynthesisOutcome.timedOut elapsed =>
          { synthesized_answer := "Synthesis failed: Request timed out. Please try again."
            synthesis_model := synModel
            tokens_used := TokenUsage.zero
            cost_estimate := 0
            response_time_seconds := elapsed
            model_contributions := none }
      | SynthesisOutcome.apiError msg elapsed =>
          { synthesized_answer := "Synthesis failed: API error - " ++ msg
            synthesis_model := synModel
            tokens_used := TokenUsage.zero
            cost_estimate := 0
            response_time_seconds := elapsed
            model_contributions := none }
      | SynthesisOutcome.unexpectedError msg elapsed =>
          { synthesized_answer := "Synthesis failed: " ++ msg
            synthesis_model := synModel
            tokens_used := TokenUsage.zero
            cost_estimate := 0
            response_time_seconds := elapsed
            model_contributions := none }

/-! ### Time-travel snapshot engine
(`backend/app/services/time_travel_service_optimized.py`)

Snapshot dates are instants (the `datetime` objects are not decomposed).
The question only feeds prompt text, which is not modelled; the complexity
classifier is embedded as a function of the question's observable lexical
features (the `COMPLEX_PATTERNS` regex matches and the word count). -/

/-- `SnapshotComplexity` enum of the time-travel service. -/
inductive SnapshotComplexity where
  | simple
  | moderate
  | complex
deriving DecidableEq

/-- `TimeSnapshot` dataclass. -/
structure TimeSnapshot where
  date : ℤ
  date_label : String
  answer : String
  key_changes : List String
  data_points : List String
  model_used : String
  tokens_used : ℕ
  cost_estimate : ℚ
  response_time_seconds : ℚ
deriving DecidableEq

/-- `classify_question_complexity`, as a function of the `COMPLEX_PATTERNS`
matches and the question's word count (the returned reasoning string is not
modelled). -/
def classify_question_complexity (complexMatches : List String) (wordCount : ℕ) :
    SnapshotComplexity :=
  if 3 ≤ complexMatches.length ∨ (2 ≤ complexMatches.length ∧ 15 < wordCount) then
    SnapshotComplexity.complex
  else if 1 ≤ complexMatches.length ∨ 10 < wordCount then
    SnapshotComplexity.moderate
  else SnapshotComplexity.moderate

/-- `MODEL_ROUTING` together with `get_model_for_complexity` (the dictionary
is total over the enum, so the `"gpt-4o"` default of `.get` is unreachable). -/
def get_model_for_complexity : SnapshotComplexity → String
  | SnapshotComplexity.simple => "gpt-4o-mini"
  | SnapshotComplexity.moderate => "gpt-4o"
  | SnapshotComplexity.complex => "gpt-4-turbo"

/-- The outcome of one snapshot-generation task: a completed call, an
exception caught inside `generate_snapshot_parallel`, or an exception
surfacing to `asyncio.gather`. -/
inductive SnapshotOutcome where
  | completed (content : String) (usage : TokenUsage) (elapsed : ℚ)
  | callError (msg : String)
  | taskRaised (msg : String)

/-- `generate_snapshot_parallel`, as a function of its call outcome: a
completed call yields a full snapshot (key changes are left empty, to be
filled by the batched extraction); a caught exception yields the
"Unable to generate snapshot" placeholder for the same date and model; an
uncaught exception propagates.  `_extract_data_points` is regex scanning over
the answer text, abstracted as the `extractDataPoints` parameter. -/
def generate_snapshot_parallel (date : ℤ) (date_label : String) (model : String)
    (extractDataPoints : String → List String) (outcome : SnapshotOutcome) :
    Except String TimeSnapshot :=
  match outcome with
  | SnapshotOutcome.completed content usage elapsed =>
      Except.ok
        { date := date
          date_label := date_label
          answer := content
          key_changes := []
          data_points := extractDataPoints content
          model_used := model
          tokens_used := usage.total_tokens
          cost_estimate := ModelConfig.get_cost model usage.prompt_tokens usage.completion_tokens
          response_time_seconds := elapsed }
  | SnapshotOutcome.callError msg =>
      Except.ok
        { date := date
          date_label := date_label
          answer := "Unable to generate snapshot: " ++ msg
          key_changes := []
          data_points := []
          model_used := model
          tokens_used := 0
          cost_estimate := 0
          response_time_seconds := 0 }
  | SnapshotOutcome.taskRaised msg => Except.error msg

/-- `generate_all_snapshots_parallel`: one task per time point (same `model`
for every task), gathered with `return_exceptions=True`; a gathered exception
becomes an error snapshot in its own slot, again with the same `model`. -/
def generate_all_snapshots_parallel (time_points : List (ℤ × String)) (model : String)
    (extractDataPoints : String → List String) (outcomes : ℕ → SnapshotOutcome) :
    List TimeSnapshot :=
  (List.range time_points.length).map fun i =>
    let tp := time_points.getD i (0, "")
    match generate_snapshot_parallel tp.1 tp.2 model extractDataPoints (outcomes i) with
    | Except.ok s => s
    | Except.error msg =>
        { date := tp.1
          date_label := tp.2
          answer := "Error: " ++ msg
          key_changes := []
          data_points := []
          model_used := model
          tokens_used := 0
          cost_estimate := 0
          response_time_seconds := 0 }

/-- Steps 2–4 of `generate_time_travel_answer` for an eligible run: complexity
is classified once from the question, the model for that complexity is chosen
once, and all snapshots are generated with that one model.  (The intervening
time-point selection and truncation only shape `time_points`, which is a
parameter here.) -/
def timeTravelSnapshots (complexMatches : List String) (wordCount : ℕ)
    (time_points : List (ℤ × String)) (extractDataPoints : String → List String)
    (outcomes : ℕ → SnapshotOutcome) : List TimeSnapshot :=
  let base_complexity := classify_question_complexity complexMatches wordCount
  let model_for_snapshots := get_model_for_complexity base_complexity
  generate_all_snapshots_parallel time_points model_for_snapshots extractDataPoints outcomes

/-- The all-default `ModelResponse` used as the out-of-range placeholder when
indexing result lists. -/
def ModelResponse.empty : ModelResponse :=
  ⟨"", "", TokenUsage.zero, 0, 0, CacheStatus.miss, none, false⟩

/-! ## Theorems -/

/-- Indexing a list built by mapping over `List.range`. -/
theorem rangeMap_getD {β : Type} (n i : ℕ) (f : ℕ → β) (d : β) (h : i < n) :
    ((List.range n).map f).getD i d = f i := by
  rw [List.getD_eq_getElem?_getD, List.getElem?_map, List.getElem?_range h]
  rfl

/-- C6: cache round-trip — after `set(k, v, ttl)` with a positive `ttl`, an
immediate `get(k)` returns `v`; once the elapsed time exceeds `ttl`, `get(k)`
misses and evicts the entry on that access; and an expired entry is never
returned by `get`. -/
theorem cache_roundtrip_expiry {α : Type} (m : CacheManager α) (k : String) (v : α)
    (ttl : ℤ) (tset tnow : ℚ) (httl : 0 < ttl) :
    ((m.set k v (some ttl) tset).get k tset).1 = some v ∧
    (tnow - tset > (ttl : ℚ) →
      ((m.set k v (some ttl) tset).get k tnow).1 = none ∧
      ((m.set k v (some ttl) tset).get k tnow).2.store k = none) ∧
    (∀ (m' : CacheManager α) (key : String) (t : ℚ) (w : α),
      (m'.get key t).1 = some w →
      ∃ e, m'.store key = some e ∧ e.is_expired t = false) := by
  have hset : (m.set k v (some ttl) tset).store k = some ⟨v, tset, ttl⟩ := by
    simp [CacheManager.set, CacheManager.effectiveTTL, httl.ne.symm]
  refine ⟨?_, fun hlate => ?_, fun m' key t w hw => ?_⟩
  · have hfresh : CacheEntry.is_expired (⟨v, tset, ttl⟩ : CacheEntry α) tset = false := by
      simp only [CacheEntry.is_expired, decide_eq_false_iff_not, not_lt, sub_self]
      positivity
    simp [CacheManager.get, hset, hfresh]
  · have hexp : CacheEntry.is_expired (⟨v, tset, ttl⟩ : CacheEntry α) tnow = true := by
      simpa [CacheEntry.is_expired] using hlate
    constructor
    · simp [CacheManager.get, hset, hexp]
    · simp [CacheManager.get, hset, hexp]
  · rcases hm : m'.store key with _ | e
    · simp [CacheManager.get, hm] at hw
    · by_cases hexp : e.is_expired t = true
      · simp [CacheManager.get, hm, hexp] at hw
      · exact ⟨e, by simp [hm], by simpa using hexp⟩


/-- C6 witness: a concrete round trip (`ttl = 10`, set at `t = 5`, expired
read at `t = 20`). -/
theorem cache_roundtrip_expiry_witness :
    ((CacheManager.get
        (CacheManager.set ⟨86400, fun _ => none⟩ "k" (37 : ℕ) (some 10) 5) "k" 5).1
      = some 37) ∧
    ((CacheManager.get
        (CacheManager.set ⟨86400, fun _ => none⟩ "k" (37 : ℕ) (some 10) 5) "k" 20).1
      = none) := by
  have h := cache_roundtrip_expiry (⟨86400, fun _ => none⟩ : CacheManager ℕ)
    "k" 37 10 5 20 (by norm_num)
  exact ⟨h.1, (h.2.1 (by norm_num)).1⟩

/-- C10: `set(k, v, ttl=0)` stores the entry with the manager's `default_ttl`
(Python's `ttl or self.default_ttl` treats `0` as absent), so the entry is
still returned by `get(k)` while the elapsed time is at most `default_ttl`. -/
theorem set_zero_ttl_uses_default {α : Type} (m : CacheManager α) (k : String) (v : α)
    (tset tnow : ℚ) (h : tnow - tset ≤ (m.default_ttl : ℚ)) :
    (m.set k v (some 0) tset).store k = some ⟨v, tset, m.default_ttl⟩ ∧
    ((m.set k v (some 0) tset).get k tnow).1 = some v := by
  have hset : (m.set k v (some 0) tset).store k = some ⟨v, tset, m.default_ttl⟩ := by
    simp [CacheManager.set, CacheManager.effectiveTTL]
  refine ⟨hset, ?_⟩
  have hlive : CacheEntry.is_expired (⟨v, tset, m.default_ttl⟩ : CacheEntry α) tnow = false := by
    simp only [CacheEntry.is_expired, decide_eq_false_iff_not, not_lt]
    exact h
  simp [CacheManager.get, hset, hlive]

/-- C10 witness: `ttl = 0` with `default_ttl = 100`; the value is still
readable 100 seconds later. -/
theorem set_zero_ttl_uses_default_witness :
    ((CacheManager.set ⟨100, fun _ => none⟩ "k" (5 : ℕ) (some 0) 0).store "k"
      = some ⟨5, 0, 100⟩) ∧
    ((CacheManager.get
        (CacheManager.set ⟨100, fun _ => none⟩ "k" (5 : ℕ) (some 0) 0) "k" 100).1
      = some 5) :=
  set_zero_ttl_uses_default (⟨100, fun _ => none⟩ : CacheManager ℕ) "k" 5 0 100
    (by norm_num)

/-- C4 counterexample: with exactly one successful response whose text is
`"Paris"`, the returned answer is the single-source-annotated text, not the
response text itself — the claim's "the returned answer equals that
response's text" fails. -/
theorem synthesize_single_not_verbatim :
    (synthesize
        [⟨"gpt-4o", "Paris", TokenUsage.zero, 0, 0, CacheStatus.miss, none, true⟩]
        none "gpt-5.2" (fun _ => "") (SynthesisOutcome.timedOut 0)).synthesized_answer
      ≠ "Paris" := by
  decide

/-- C4 (amended): with zero successful responses `synthesize` returns the
explicit no-successful-responses marker at zero cost; with exactly one
successful response it returns that response's text prefixed by a
single-source note, at that response's own cost, and the result does not
depend on the synthesis-call outcome (no synthesis call is made). -/
theorem synthesize_degenerate_cases (rs : List ModelResponse) (sm : Option String)
    (setting : String) (note : ModelResponse → String) (o : SynthesisOutcome) :
    (successfulResponses rs = [] →
      (synthesize rs sm setting note o).synthesized_answer =
        "Unable to synthesize: No successful model responses available." ∧
      (synthesize rs sm setting note o).cost_estimate = 0) ∧
    (∀ r, successfulResponses rs = [r] →
      (synthesize rs sm setting note o).synthesized_answer =
        "*Note: Only one model (" ++ r.model_name ++
          ") provided a successful response.*\n\n" ++ r.response_text ∧
      (synthesize rs sm setting note o).cost_estimate = r.cost_estimate ∧
      ∀ o', synthesize rs sm setting note o = synthesize rs sm setting note o') := by
  constructor
  · intro h
    simp [synthesize, h]
  · intro r h
    refine ⟨?_, ?_, fun o' => ?_⟩ <;> simp [synthesize, h]

/-- C4 witness: both degenerate cases at concrete inputs — an all-failed list
and a single-success list. -/
theorem synthesize_degenerate_cases_witness :
    ((synthesize [⟨"gpt-4o", "", TokenUsage.zero, 0, 0, CacheStatus.miss,
        some "boom", false⟩] none "gpt-5.2" (fun _ => "")
        (SynthesisOutcome.timedOut 0)).synthesized_answer =
      "Unable to synthesize: No successful model responses available.") ∧
    ((synthesize [⟨"gpt-4o", "Paris", TokenUsage.zero, 3/100, 0, CacheStatus.miss,
        none, true⟩] none "gpt-5.2" (fun _ => "")
        (SynthesisOutcome.timedOut 0)).cost_estimate = 3/100) := by
  constructor
  · exact ((synthesize_degenerate_cases
      [⟨"gpt-4o", "", TokenUsage.zero, 0, 0, CacheStatus.miss, some "boom", false⟩]
      none "gpt-5.2" (fun _ => "") (SynthesisOutcome.timedOut 0)).1 (by rfl)).1
  · exact ((synthesize_degenerate_cases
      [⟨"gpt-4o", "Paris", TokenUsage.zero, 3/100, 0, CacheStatus.miss, none, true⟩]
      none "gpt-5.2" (fun _ => "") (SynthesisOutcome.timedOut 0)).2
      ⟨"gpt-4o", "Paris", TokenUsage.zero, 3/100, 0, CacheStatus.miss, none, true⟩
      (by rfl)).2.1

/-- C9: in an eligible time-travel run, complexity is classified once and the
resulting model is used identically for every snapshot — every
`TimeSnapshot.model_used` in the result (completed, caught-error, and
gathered-exception slots alike) equals the model chosen for the question's
complexity. -/
theorem time_travel_single_model (complexMatches : List String) (wordCount : ℕ)
    (time_points : List (ℤ × String)) (extractDataPoints : String → List String)
    (outcomes : ℕ → SnapshotOutcome) :
    (timeTravelSnapshots complexMatches wordCount time_points extractDataPoints
        outcomes).all
      (fun s =>
        s.model_used =
          get_model_for_complexity
            (classify_question_complexity complexMatches wordCount)) = true := by
  simp only [timeTravelSnapshots, generate_all_snapshots_parallel, List.all_eq_true,
    List.mem_map, List.mem_range, forall_exists_index, and_imp]
  rintro s i hi rfl
  cases outcomes i <;> simp [generate_snapshot_parallel]

/-- C8 counterexample: a question whose only temporal signal is the year 2022
(at or below the cutoff 2023, with the current year 2026): the code classifies
it `evergreen` (the temporality test fails first), while the claim's decision
rule classifies it `historical`. -/
theorem temporal_scope_mismatch :
    (detect_temporal_query [] [2022] false 2026 2023).temporal_scope ≠
      specTemporalScope [] [2022] 2026 2023 := by
  decide

/-- C8 (amended): the scope chain runs only after the temporality test — a
question with no keyword match and no year above the cutoff is `evergreen`
even when years at or below the cutoff were extracted; among temporal
questions, a year above the current year gives `future`, otherwise non-empty
years all at or below the cutoff give `historical`, otherwise `current`. -/
theorem temporal_scope_decision (kws : List String) (ys : List ℤ) (rc : Bool)
    (cy ky : ℤ) :
    ((detect_temporal_query kws ys rc cy ky).is_temporal = false →
      (detect_temporal_query kws ys rc cy ky).temporal_scope = TemporalScope.evergreen) ∧
    (kws = [] → ys.all (fun y => decide (y ≤ ky)) = true →
      (detect_temporal_query kws ys rc cy ky).temporal_scope = TemporalScope.evergreen) ∧
    ((detect_temporal_query kws ys rc cy ky).is_temporal = true →
      ys.any (fun y => decide (y > cy)) = true →
      (detect_temporal_query kws ys rc cy ky).temporal_scope = TemporalScope.future) ∧
    ((detect_temporal_query kws ys rc cy ky).is_temporal = true →
      ys.any (fun y => decide (y > cy)) = false → ys ≠ [] →
      ys.all (fun y => decide (y ≤ ky)) = true →
      (detect_temporal_query kws ys rc cy ky).temporal_scope = TemporalScope.historical) ∧
    ((detect_temporal_query kws ys rc cy ky).is_temporal = true →
      ys.any (fun y => decide (y > cy)) = false →
      ¬(ys ≠ [] ∧ ys.all (fun y => decide (y ≤ ky)) = true) →
      (detect_temporal_query kws ys rc cy ky).temporal_scope = TemporalScope.current) := by
  refine ⟨fun hnt => ?_, fun hk hy => ?_, fun ht hfut => ?_,
    fun ht hfut hne hcut => ?_, fun ht hfut hnot => ?_⟩
  · simp only [detect_temporal_query] at hnt ⊢
    simp [hnt]
  · have hnt : (detect_temporal_query kws ys rc cy ky).is_temporal = false := by
      simp only [detect_temporal_query, hk, List.isEmpty_nil, Bool.not_true,
        Bool.false_or]
      simp only [List.all_eq_true, decide_eq_true_eq] at hy
      simp only [List.any_eq_false, decide_eq_true_eq]
      intro y hyy
      have := hy y hyy
      omega
    simp only [detect_temporal_query] at hnt ⊢
    simp [hnt]
  · simp only [detect_temporal_query] at ht ⊢
    simp [ht, hfut]
  · simp only [detect_temporal_query] at ht ⊢
    have hne' : ys.isEmpty = false := by
      simpa [List.isEmpty_iff] using hne
    simp [ht, hfut, hne', hcut]
  · simp only [detect_temporal_query] at ht ⊢
    rcases eq_or_ne ys ([] : List ℤ) with rfl | hne
    · -- with no years, a temporal question falls through to `current`
      simp [ht]
      intro hkk
      subst hkk
      simp at ht
    · have hcut : ys.all (fun y => decide (y ≤ ky)) = false := by
        rcases Bool.eq_false_or_eq_true (ys.all fun y => decide (y ≤ ky)) with h | h
        · exact absurd ⟨hne, h⟩ hnot
        · exact h
      have hne' : ys.isEmpty = false := by
        simpa [List.isEmpty_iff] using hne
      simp [ht, hfut, hne', hcut]

/-- C8 witness: `["latest"]` with year 2022 (current year 2026, cutoff 2023)
is temporal and classified `historical`. -/
theorem temporal_scope_decision_witness :
    (detect_temporal_query ["latest"] [2022] false 2026 2023).temporal_scope =
      TemporalScope.historical :=
  (temporal_scope_decision ["latest"] [2022] false 2026 2023).2.2.2.1
    (by decide) (by decide) (by decide) (by decide)

/-- C2 counterexample: a temporal query with `override_models=["gpt-4o"]`
yields a single-model routing decision — the padding step only appends
`"gpt-4o"` when it is absent, so the temporal two-model minimum is not met. -/
theorem temporal_minimum_not_met :
    ¬(2 ≤ (determine_execution_path "gpt-5.2"
        ⟨ComplexityLevel.simple, QueryIntent.factual, QueryDomain.general, false,
          TemporalScope.current, [], 1⟩
        (some ["gpt-4o"]) none
        (some ⟨true, TemporalScope.current, true, ["latest"], [], 85/100⟩)
        ).models_to_use.length) := by
  decide

/-- C2 (amended): for a temporal query, `determine_execution_path` returns at
least the two-model temporal minimum — including when the complexity tier
alone selects fewer and when `override_models` supplies fewer — except in the
one case where the pre-padding selection is exactly `["gpt-4o"]`, which the
padding step (append `"gpt-4o"` only if absent) leaves below the minimum. -/
theorem temporal_minimum_models (setting : String) (c : QueryClassification)
    (ov : Option (List String)) (f : Option Bool) (td : TemporalDetectionResult)
    (ht : td.is_temporal = true) (hov : ov ≠ some ["gpt-4o"]) :
    2 ≤ (determine_execution_path setting c ov f (some td)).models_to_use.length := by
  rcases ov with _ | ms
  · cases hc : c.complexity <;>
      simp [determine_execution_path, autoRoute, hc, ht]
  · by_cases hms : ms = []
    · subst hms
      cases hc : c.complexity <;>
        simp [determine_execution_path, autoRoute, hc, ht]
    · by_cases hlen : ms.length < 2
      · have h1 : ms.length = 1 := by
          have : 1 ≤ ms.length := List.length_pos.mpr hms
          omega
        obtain ⟨x, rfl⟩ := List.length_eq_one.mp h1
        have hx : x ≠ "gpt-4o" := by
          intro hxx
          exact hov (by rw [hxx])
        simp [determine_execution_path, hms, ht, hx, Ne.symm hx]
      · have h2 : 2 ≤ ms.length := by omega
        by_cases hmem : "gpt-4o" ∈ ms <;>
          simp [determine_execution_path, hms, ht, hmem, h2, Nat.not_lt.mpr h2]

/-- C2 witness: a temporal query with a single-model override `["gpt-4o-mini"]`
is padded to two models. -/
theorem temporal_minimum_models_witness :
    2 ≤ (determine_execution_path "gpt-5.2"
        ⟨ComplexityLevel.simple, QueryIntent.factual, QueryDomain.general, false,
          TemporalScope.current, [], 1⟩
        (some ["gpt-4o-mini"]) none
        (some ⟨true, TemporalScope.current, true, ["latest"], [], 85/100⟩)
        ).models_to_use.length :=
  temporal_minimum_models "gpt-5.2"
    ⟨ComplexityLevel.simple, QueryIntent.factual, QueryDomain.general, false,
      TemporalScope.current, [], 1⟩
    (some ["gpt-4o-mini"]) none
    ⟨true, TemporalScope.current, true, ["latest"], [], 85/100⟩
    rfl (by decide)

/-- C3 counterexample: `override_models=["gpt-4o-mini"]` with
`force_synthesis=True` (no temporal detection) produces a decision with
`use_synthesis = true` but only one model — the claimed invariant
`use_synthesis → len(models) > 1` fails. -/
theorem synthesis_invariant_violated :
    (determine_execution_path "gpt-5.2"
        ⟨ComplexityLevel.simple, QueryIntent.factual, QueryDomain.general, false,
          TemporalScope.current, [], 1⟩
        (some ["gpt-4o-mini"]) (some true) none).use_synthesis = true ∧
    ¬(1 < (determine_execution_path "gpt-5.2"
        ⟨ComplexityLevel.simple, QueryIntent.factual, QueryDomain.general, false,
          TemporalScope.current, [], 1⟩
        (some ["gpt-4o-mini"]) (some true) none).models_to_use.length) := by
  constructor <;> decide

/-- C3 (amended): every routing decision satisfies: if `use_synthesis` then
`synthesis_model` is set (to the configured synthesis model); and whenever
`force_synthesis` is not supplied, `use_synthesis` additionally implies more
than one model — the claimed invariant holds except that an explicit
`force_synthesis=True` can turn synthesis on over a single-model selection. -/
theorem synthesis_invariant (setting : String) (c : QueryClassification)
    (ov : Option (List String)) (f : Option Bool)
    (td : Option TemporalDetectionResult) :
    ((determine_execution_path setting c ov f td).use_synthesis = true →
      (determine_execution_path setting c ov f td).synthesis_model = some setting) ∧
    (f = none → (determine_execution_path setting c ov f td).use_synthesis = true →
      1 < (determine_execution_path setting c ov f td).models_to_use.length) := by
  constructor
  · intro hu
    rcases ov with _ | ms
    · rcases f with _ | fv
      · cases hc : c.complexity <;>
          simp_all [determine_execution_path, autoRoute, hc]
      · cases hc : c.complexity <;> cases fv <;>
          simp_all [determine_execution_path, autoRoute, hc]
    · by_cases hms : ms = []
      · subst hms
        rcases f with _ | fv
        · cases hc : c.complexity <;>
            simp_all [determine_execution_path, autoRoute, hc]
        · cases hc : c.complexity <;> cases fv <;>
            simp_all [determine_execution_path, autoRoute, hc]
      · rcases f with _ | fv
        · by_cases hlen : 1 < ms.length <;>
            simp_all [determine_execution_path, hms]
        · cases fv <;> simp_all [determine_execution_path, hms]
  · rintro rfl hu
    rcases ov with _ | ms
    · cases hc : c.complexity <;>
        simp_all [determine_execution_path, autoRoute, hc]
    · by_cases hms : ms = []
      · subst hms
        cases hc : c.complexity <;>
          simp_all [determine_execution_path, autoRoute, hc]
      · by_cases hlen : 1 < ms.length
        · simp only [determine_execution_path]
          split_ifs <;> simp_all [List.length_append]
          omega
        · simp_all [determine_execution_path, hms, hlen]

/-- C3 witness: an automatically routed complex query turns synthesis on with
the configured synthesis model and three models. -/
theorem synthesis_invariant_witness :
    ((determine_execution_path "gpt-5.2"
        ⟨ComplexityLevel.complex, QueryIntent.factual, QueryDomain.general, false,
          TemporalScope.evergreen, [], 1⟩
        none none none).use_synthesis = true →
      (determine_execution_path "gpt-5.2"
        ⟨ComplexityLevel.complex, QueryIntent.factual, QueryDomain.general, false,
          TemporalScope.evergreen, [], 1⟩
        none none none).synthesis_model = some "gpt-5.2") ∧
    (1 < (determine_execution_path "gpt-5.2"
        ⟨ComplexityLevel.complex, QueryIntent.factual, QueryDomain.general, false,
          TemporalScope.evergreen, [], 1⟩
        none none none).models_to_use.length) := by
  have h := synthesis_invariant "gpt-5.2"
    ⟨ComplexityLevel.complex, QueryIntent.factual, QueryDomain.general, false,
      TemporalScope.evergreen, [], 1⟩
    none none none
  exact ⟨h.1, h.2 rfl (by decide)⟩

/-- C1: `call_models_parallel` returns one entry per input model — the result
has the input list's length; the `i`-th entry carries the `i`-th model's name
(given that cache hits are stored under their own model's key); a failed call
(exhausted retries or a raised exception) becomes a `success=false` entry in
its own slot; and each slot depends only on its own call's outcome, so a
failure never perturbs a sibling slot. -/
theorem call_models_parallel_shape (models : List String) (oc : ℕ → CallOutcome)
    (hcached : ∀ i r e, oc i = CallOutcome.cached r e →
      r.model_name = models.getD i "") :
    (call_models_parallel models oc).length = models.length ∧
    (∀ i, i < models.length →
      ((call_models_parallel models oc).getD i ModelResponse.empty).model_name =
        models.getD i "") ∧
    (∀ i, i < models.length → (oc i).isFailure = true →
      ((call_models_parallel models oc).getD i ModelResponse.empty).success = false) ∧
    (∀ (oc' : ℕ → CallOutcome) i, i < models.length → oc i = oc' i →
      (call_models_parallel models oc).getD i ModelResponse.empty =
        (call_models_parallel models oc').getD i ModelResponse.empty) := by
  refine ⟨by simp [call_models_parallel], fun i hi => ?_, fun i hi hf => ?_,
    fun oc' i hi he => ?_⟩
  · rw [call_models_parallel, rangeMap_getD models.length i _ _ hi]
    cases hoc : oc i with
    | cached r e => simp [gatherSlot, call_model, hcached i r e hoc]
    | completed text usage elapsed => simp [gatherSlot, call_model]
    | exhausted err elapsed => simp [gatherSlot, call_model]
    | raised msg => simp [gatherSlot, call_model]
  · rw [call_models_parallel, rangeMap_getD models.length i _ _ hi]
    cases hoc : oc i with
    | cached r e => simp [CallOutcome.isFailure, hoc] at hf
    | completed text usage elapsed => simp [CallOutcome.isFailure, hoc] at hf
    | exhausted err elapsed => simp [gatherSlot, call_model]
    | raised msg => simp [gatherSlot, call_model]
  · rw [call_models_parallel, call_models_parallel,
      rangeMap_getD models.length i _ _ hi, rangeMap_getD models.length i _ _ hi, he]

/-- C1 witness: two models where the first call completes and the second task
raises — the result still has two slots and the second is a failure entry. -/
theorem call_models_parallel_shape_witness :
    (call_models_parallel ["gpt-4o-mini", "gpt-4o"]
        (fun i => if i = 0 then CallOutcome.completed "hi" ⟨1, 1, 2⟩ 1
          else CallOutcome.raised "boom")).length = 2 ∧
    ((call_models_parallel ["gpt-4o-mini", "gpt-4o"]
        (fun i => if i = 0 then CallOutcome.completed "hi" ⟨1, 1, 2⟩ 1
          else CallOutcome.raised "boom")).getD 1 ModelResponse.empty).success
      = false := by
  have h := call_models_parallel_shape ["gpt-4o-mini", "gpt-4o"]
    (fun i => if i = 0 then CallOutcome.completed "hi" ⟨1, 1, 2⟩ 1
      else CallOutcome.raised "boom")
    (by intro i r e hce; rcases i with _ | i <;> simp at hce)
  exact ⟨by simpa using h.1, h.2.2.1 1 (by decide) (by decide)⟩

/-- Folding `record_failure` over `ts ++ [t]` is folding over `ts` and then
recording one more failure. -/
theorem recordFailures_append (cb : CircuitBreaker) (ts : List ℚ) (t : ℚ) :
    cb.recordFailures (ts ++ [t]) = (cb.recordFailures ts).record_failure t := by
  induction ts generalizing cb with
  | nil => rfl
  | cons u us ih => simpa [CircuitBreaker.recordFailures] using ih (cb.record_failure u)

/-- `record_failure` accumulates the failure count and never touches the
configuration fields. -/
theorem recordFailures_count (cb : CircuitBreaker) (ts : List ℚ) :
    (cb.recordFailures ts).failureCount = cb.failureCount + ts.length ∧
    (cb.recordFailures ts).failure_threshold = cb.failure_threshold ∧
    (cb.recordFailures ts).recovery_timeout = cb.recovery_timeout ∧
    (cb.recordFailures ts).half_open_max_calls = cb.half_open_max_calls := by
  induction ts generalizing cb with
  | nil => simp [CircuitBreaker.recordFailures]
  | cons u us ih =>
      have h := ih (cb.record_failure u)
      simp only [CircuitBreaker.recordFailures] at h ⊢
      refine ⟨?_, h.2⟩
      rw [h.1]
      simp only [CircuitBreaker.record_failure, List.length_cons]
      omega

/-- While fewer than `half_open_max_calls` probes have succeeded, repeated
`record_success` in `HALF_OPEN` only advances the probe counter. -/
theorem record_success_iterate (cb : CircuitBreaker) (j : ℕ)
    (hst : cb.state = CircuitState.half_open)
    (hj : cb.halfOpenCalls + j < cb.half_open_max_calls) :
    CircuitBreaker.record_success^[j] cb =
      { cb with halfOpenCalls := cb.halfOpenCalls + j } := by
  induction j generalizing cb with
  | zero => simp
  | succ k ih =>
      rw [Function.iterate_succ_apply]
      have h1 : cb.record_success = { cb with halfOpenCalls := cb.halfOpenCalls + 1 } := by
        simp only [CircuitBreaker.record_success]
        rw [if_pos hst, if_neg (by omega)]
      have hj2 : cb.halfOpenCalls + 1 + k < cb.half_open_max_calls := by omega
      rw [h1, ih { cb with halfOpenCalls := cb.halfOpenCalls + 1 } hst hj2]
      have he : cb.halfOpenCalls + 1 + k = cb.halfOpenCalls + (k + 1) := by omega
      exact congrArg (fun n => { cb with halfOpenCalls := n }) he

/-- The probe that reaches `half_open_max_calls` successes closes the circuit. -/
theorem record_success_closes (cb : CircuitBreaker) (k : ℕ)
    (hst : cb.state = CircuitState.half_open)
    (hk : cb.halfOpenCalls + k = cb.half_open_max_calls) (h1 : 1 ≤ k) :
    (CircuitBreaker.record_success^[k] cb).state = CircuitState.closed := by
  rcases k with _ | k
  · omega
  · rw [Function.iterate_succ_apply', record_success_iterate cb k hst (by omega)]
    simp only [CircuitBreaker.record_success]
    rw [if_pos (show ({ cb with halfOpenCalls := cb.halfOpenCalls + k } :
      CircuitBreaker).state = CircuitState.half_open from hst)]
    rw [if_pos (show cb.half_open_max_calls ≤ cb.halfOpenCalls + k + 1 by omega)]

/-- C5: circuit-breaker lifecycle.  From a fresh breaker, `failure_threshold`
consecutive `record_failure` calls (the last at non-zero instant `tl`) open
the circuit; every `can_execute` check within `recovery_timeout` of `tl`
refuses and leaves the breaker unchanged; a check after `recovery_timeout`
has elapsed moves it to `HALF_OPEN` and allows it; from there, probes are
permitted while fewer than `half_open_max_calls` have succeeded, the
`half_open_max_calls`-th success closes the circuit, and any probe failure
reopens it. -/
theorem circuit_breaker_lifecycle (nm : String) (thr maxc : ℕ) (rt : ℚ)
    (ts' : List ℚ) (tl : ℚ) (hthr : ts'.length + 1 = thr) (hmax : 1 ≤ maxc)
    (htl : tl ≠ 0) :
    (CircuitBreaker.afterFailures nm thr rt maxc (ts' ++ [tl])).state
        = CircuitState.opened ∧
    (CircuitBreaker.afterFailures nm thr rt maxc (ts' ++ [tl])).lastFailureTime
        = some tl ∧
    (∀ t : ℚ, t - tl ≤ rt →
      ((CircuitBreaker.afterFailures nm thr rt maxc (ts' ++ [tl])).can_execute t).1
          = false ∧
      ((CircuitBreaker.afterFailures nm thr rt maxc (ts' ++ [tl])).can_execute t).2
          = CircuitBreaker.afterFailures nm thr rt maxc (ts' ++ [tl])) ∧
    (∀ t : ℚ, t - tl > rt →
      ((CircuitBreaker.afterFailures nm thr rt maxc (ts' ++ [tl])).can_execute t).1
          = true ∧
      ((CircuitBreaker.afterFailures nm thr rt maxc
          (ts' ++ [tl])).can_execute t).2.state = CircuitState.half_open ∧
      (∀ j, j < maxc →
        ((CircuitBreaker.record_success^[j]
            ((CircuitBreaker.afterFailures nm thr rt maxc
              (ts' ++ [tl])).can_execute t).2).can_execute t).1 = true) ∧
      (CircuitBreaker.record_success^[maxc]
          ((CircuitBreaker.afterFailures nm thr rt maxc
            (ts' ++ [tl])).can_execute t).2).state = CircuitState.closed ∧
      (∀ j, j < maxc → ∀ tf : ℚ,
        ((CircuitBreaker.record_success^[j]
            ((CircuitBreaker.afterFailures nm thr rt maxc
              (ts' ++ [tl])).can_execute t).2).record_failure tf).state
          = CircuitState.opened)) := by
  set cbp := (CircuitBreaker.fresh nm thr rt maxc).recordFailures ts' with hcpdef
  set cb₁ := CircuitBreaker.afterFailures nm thr rt maxc (ts' ++ [tl]) with hdef
  have hcb : cb₁ = cbp.record_failure tl := by
    rw [hdef, hcpdef, CircuitBreaker.afterFailures]
    exact recordFailures_append _ _ _
  have hcp := recordFailures_count (CircuitBreaker.fresh nm thr rt maxc) ts'
  rw [← hcpdef] at hcp
  have hcount : cb₁.failureCount = thr := by
    rw [hcb]
    have h1 : (cbp.record_failure tl).failureCount = cbp.failureCount + 1 := rfl
    rw [h1, hcp.1]
    show 0 + ts'.length + 1 = thr
    omega
  have hthr' : cb₁.failure_threshold = thr := by
    rw [hcb]
    exact hcp.2.1
  have hstate : cb₁.state = CircuitState.opened := by
    rw [hcb]
    have h1 : (cbp.record_failure tl).state =
        if cbp.failure_threshold ≤ cbp.failureCount + 1 then CircuitState.opened
        else cbp.state := rfl
    rw [h1, if_pos]
    rw [hcp.2.1, hcp.1]
    show thr ≤ 0 + ts'.length + 1
    omega
  have hlast : cb₁.lastFailureTime = some tl := by
    rw [hcb]
    rfl
  have hrt : cb₁.recovery_timeout = rt := by
    rw [hcb]
    exact hcp.2.2.1
  have hmaxf : cb₁.half_open_max_calls = maxc := by
    rw [hcb]
    exact hcp.2.2.2
  refine ⟨hstate, hlast, fun t ht => ?_, fun t ht => ?_⟩
  · have hsa : cb₁.stateAt t = cb₁ := by
      simp only [CircuitBreaker.stateAt, hlast]
      rw [if_neg]
      rintro ⟨-, hbool⟩
      simp only [Bool.and_eq_true, decide_eq_true_eq] at hbool
      rw [hrt] at hbool
      exact absurd hbool.2 (not_lt.mpr ht)
    constructor
    · simp [CircuitBreaker.can_execute, hsa, hstate]
    · simp [CircuitBreaker.can_execute, hsa, hstate]
  · have hb : (decide (tl ≠ 0) && decide (t - tl > cb₁.recovery_timeout)) = true := by
      simp only [Bool.and_eq_true, decide_eq_true_eq]
      exact ⟨htl, by rw [hrt]; exact ht⟩
    have hsa : cb₁.stateAt t =
        { cb₁ with state := CircuitState.half_open, halfOpenCalls := 0 } := by
      simp only [CircuitBreaker.stateAt, hlast]
      rw [if_pos ⟨hstate, hb⟩]
    have hexec : cb₁.can_execute t =
        (true, { cb₁ with state := CircuitState.half_open, halfOpenCalls := 0 }) := by
      simp only [CircuitBreaker.can_execute, hsa]
      have h0 : (0 : ℕ) < maxc := hmax
      simp [hmaxf, h0]
    refine ⟨by rw [hexec], by rw [hexec], fun j hj => ?_, ?_, fun j hj tf => ?_⟩
    · rw [hexec]
      rw [record_success_iterate _ j rfl
        (by show 0 + j < cb₁.half_open_max_calls; omega)]
      simp [CircuitBreaker.can_execute, CircuitBreaker.stateAt, hmaxf, hj]
    · rw [hexec]
      exact record_success_closes _ maxc rfl
        (by show 0 + maxc = cb₁.half_open_max_calls; omega) hmax
    · rw [hexec]
      rw [record_success_iterate _ j rfl
        (by show 0 + j < cb₁.half_open_max_calls; omega)]
      have h1 : ∀ (x : CircuitBreaker) (u : ℚ), (x.record_failure u).state =
          if x.failure_threshold ≤ x.failureCount + 1 then CircuitState.opened
          else x.state := fun x u => rfl
      rw [h1, if_pos]
      show cb₁.failure_threshold ≤ cb₁.failureCount + 1
      omega

/-- C5 witness: threshold 2, recovery timeout 30, 2 half-open probes;
failures at t=10 and t=20 open the circuit, a check at t=45 refuses, a check
at t=51 probes, and two successful probes close the circuit. -/
theorem circuit_breaker_lifecycle_witness :
    (((CircuitBreaker.afterFailures "openai_api" 2 30 2
        ([10] ++ [20])).can_execute 45).1 = false) ∧
    (((CircuitBreaker.afterFailures "openai_api" 2 30 2
        ([10] ++ [20])).can_execute 51).1 = true) ∧
    ((CircuitBreaker.record_success^[2]
        ((CircuitBreaker.afterFailures "openai_api" 2 30 2
          ([10] ++ [20])).can_execute 51).2).state = CircuitState.closed) := by
  have h := circuit_breaker_lifecycle "openai_api" 2 2 30 [10] 20 rfl
    (by norm_num) (by norm_num)
  obtain ⟨-, -, hopen, hrec⟩ := h
  exact ⟨(hopen 45 (by norm_num)).1, (hrec 51 (by norm_num)).1,
    (hrec 51 (by norm_num)).2.2.2.1⟩

/-- While the window has room and every call lies within the window of every
recorded timestamp, a run of `is_allowed` calls admits them all and appends
their timestamps. -/
theorem runAllowed_within_window (rl : RateLimiter) (client : String)
    (s ts : List ℚ) (hs : (rl.clients client).getD [] = s)
    (hlen : s.length + ts.length ≤ rl.max_requests)
    (hkeep : ∀ x ∈ s, ∀ t ∈ ts, t - (rl.window_seconds : ℚ) < x)
    (hpair : ∀ a ∈ ts, ∀ b ∈ ts, a - (rl.window_seconds : ℚ) < b) :
    (rl.runAllowed client ts).2 = List.replicate ts.length true ∧
    ((rl.runAllowed client ts).1.clients client).getD [] = s ++ ts ∧
    (rl.runAllowed client ts).1.max_requests = rl.max_requests ∧
    (rl.runAllowed client ts).1.window_seconds = rl.window_seconds := by
  induction ts generalizing rl s with
  | nil => simpa [RateLimiter.runAllowed] using hs
  | cons t rest ih =>
      have hprune : RateLimitEntry.cleanup s rl.window_seconds t = s := by
        rw [RateLimitEntry.cleanup, List.filter_eq_self]
        intro x hx
        simpa using hkeep x hx t (by simp)
      have hroom : ¬(rl.max_requests ≤ s.length) := by
        simp only [List.length_cons] at hlen
        omega
      have hstep : rl.is_allowed client t =
          (true,
           { rl with
             clients := fun c => if c = client then some (s ++ [t]) else rl.clients c }) := by
        simp only [RateLimiter.is_allowed, hs, hprune]
        rw [if_neg hroom]
      have ih' := ih
        { rl with
          clients := fun c => if c = client then some (s ++ [t]) else rl.clients c }
        (s ++ [t]) (by simp)
        (by simp only [List.length_append, List.length_cons, List.length_singleton,
              List.length_nil] at hlen ⊢
            omega)
        (by intro x hx u hu
            rcases List.mem_append.mp hx with hx | hx
            · exact hkeep x hx u (List.mem_cons_of_mem t hu)
            · rw [List.mem_singleton.mp hx]
              exact hpair u (List.mem_cons_of_mem t hu) t (List.mem_cons_self t rest))
        (fun a ha b hb =>
          hpair a (List.mem_cons_of_mem t ha) b (List.mem_cons_of_mem t hb))
      simp only [RateLimiter.runAllowed, hstep]
      refine ⟨?_, ?_, ih'.2.2.1, ih'.2.2.2⟩
      · simp [ih'.1, List.replicate_succ]
      · rw [ih'.2.1, List.append_assoc]
        simp

/-- C7: starting from a fresh client window, every one of `max_requests`
`is_allowed` calls lying within one window of each other returns true; a
further call still within the window of all of them returns false; and once
the window has fully elapsed past every recorded request, the next call
returns true again. -/
theorem rate_limiter_window (rl : RateLimiter) (client : String) (ts : List ℚ)
    (h0 : rl.clients client = none) (hpos : 1 ≤ rl.max_requests)
    (hlen : ts.length = rl.max_requests)
    (hspan : ∀ a ∈ ts, ∀ b ∈ ts, a - b < (rl.window_seconds : ℚ)) :
    (rl.runAllowed client ts).2 = List.replicate rl.max_requests true ∧
    (∀ tb : ℚ, (∀ a ∈ ts, tb - a < (rl.window_seconds : ℚ)) →
      ((rl.runAllowed client ts).1.is_allowed client tb).1 = false ∧
      (∀ tf : ℚ, (∀ a ∈ ts, a ≤ tf - (rl.window_seconds : ℚ)) →
        ((((rl.runAllowed client ts).1.is_allowed client tb).2).is_allowed client
            tf).1 = true)) := by
  have key := runAllowed_within_window rl client [] ts (by simp [h0])
    (by simp [hlen]) (by simp)
    (by intro a ha b hb
        have h := hspan a ha b hb
        linarith)
  refine ⟨by rw [key.1, hlen], fun tb htb => ?_⟩
  have hcl : ((rl.runAllowed client ts).1.clients client).getD [] = ts := by
    simpa using key.2.1
  have hwin : (rl.runAllowed client ts).1.window_seconds = rl.window_seconds :=
    key.2.2.2
  have hmaxr : (rl.runAllowed client ts).1.max_requests = rl.max_requests :=
    key.2.2.1
  have hp1 : RateLimitEntry.cleanup (((rl.runAllowed client ts).1.clients
      client).getD []) (rl.runAllowed client ts).1.window_seconds tb = ts := by
    rw [hcl, hwin, RateLimitEntry.cleanup, List.filter_eq_self]
    intro a ha
    have := htb a ha
    simp only [decide_eq_true_eq]
    linarith
  have hfull : (rl.runAllowed client ts).1.max_requests ≤ ts.length := by
    rw [hmaxr, hlen]
  have hstep :
      (rl.runAllowed client ts).1.is_allowed client tb =
        (false,
         { (rl.runAllowed client ts).1 with
           clients := fun c => if c = client then some ts
             else (rl.runAllowed client ts).1.clients c }) := by
    simp only [RateLimiter.is_allowed, hp1]
    rw [if_pos hfull]
  set st2 := ((rl.runAllowed client ts).1.is_allowed client tb).2 with hst2def
  have hc2 : (st2.clients client).getD [] = ts := by
    rw [hst2def, hstep]
    simp
  have hw2 : st2.window_seconds = rl.window_seconds := by
    rw [hst2def, hstep]
    exact hwin
  have hm2 : st2.max_requests = rl.max_requests := by
    rw [hst2def, hstep]
    exact hmaxr
  refine ⟨by rw [hstep], fun tf htf => ?_⟩
  have hp2 : RateLimitEntry.cleanup ((st2.clients client).getD [])
      st2.window_seconds tf = [] := by
    rw [hc2, hw2, RateLimitEntry.cleanup, List.filter_eq_nil_iff]
    intro a ha
    have := htf a ha
    simp only [decide_eq_true_eq, not_lt]
    linarith
  have hempty : ¬(st2.max_requests ≤ ([] : List ℚ).length) := by
    rw [hm2]
    simp only [List.length_nil, Nat.le_zero]
    omega
  simp only [RateLimiter.is_allowed, hp2]
  rw [if_neg hempty]

/-- C7 witness: `max_requests = 2`, `window = 60`; calls at t=0 and t=10 are
allowed, a call at t=30 is refused, and a call at t=100 is allowed again. -/
theorem rate_limiter_window_witness :
    ((⟨2, 60, fun _ => none⟩ : RateLimiter).runAllowed "c" [0, 10]).2 =
      List.replicate 2 true ∧
    ((((⟨2, 60, fun _ => none⟩ : RateLimiter).runAllowed "c" [0, 10]).1.is_allowed
        "c" 30).1 = false) ∧
    ((((((⟨2, 60, fun _ => none⟩ : RateLimiter).runAllowed "c" [0, 10]).1.is_allowed
        "c" 30).2).is_allowed "c" 100).1 = true) := by
  have h := rate_limiter_window ⟨2, 60, fun _ => none⟩ "c" [0, 10] rfl
    (by norm_num) rfl
    (by intro a ha b hb
        fin_cases ha <;> fin_cases hb <;> norm_num)
  have hb : ∀ a ∈ ([0, 10] : List ℚ), (30 : ℚ) - a <
      ((⟨2, 60, fun _ => none⟩ : RateLimiter).window_seconds : ℚ) := by
    intro a ha
    fin_cases ha <;> norm_num
  have hf : ∀ a ∈ ([0, 10] : List ℚ), a ≤ (100 : ℚ) -
      ((⟨2, 60, fun _ => none⟩ : RateLimiter).window_seconds : ℚ) := by
    intro a ha
    fin_cases ha <;> norm_num
  exact ⟨h.1, (h.2 30 hb).1, (h.2 30 hb).2 100 hf⟩

end LLMEnsemble
